import Mathlib

/-!
Verification of the safety-stock calculation engine in `src/app_v5.py`.

The engine ingests SKU records, resolves a per-record service level from a
3x3 matrix indexed by criticality (X,Y,Z) and curve (A,B,C), converts it to
a standard-normal quantile z, computes the periodic-review safety-stock
formula, derives coverage and financial metrics, rounds the result table to
two decimals, and builds three pivot-table summaries with margins.

The inverse standard-normal CDF (scipy.stats.norm.ppf) is an external
library function; it is modelled as an abstract parameter `ppf : ℝ → ℝ`.
Numeric facts about it (such as ppf 0.98 ≈ 2.0537) enter theorems as
explicit hypotheses.  Floating-point NaN is modelled with `Option`:
`none` stands for NaN / a missing (reindexed) cell.
-/

namespace SafetyStock

/-- Criticality row keys of the service-level matrix (`index=['X','Y','Z']`,
line 122 of app_v5.py). -/
inductive Crit
  | X | Y | Z
deriving DecidableEq

/-- Curve column keys of the service-level matrix (`columns=['A','B','C']`,
line 123 of app_v5.py). -/
inductive Curva
  | A | B | C
deriving DecidableEq

/-- Membership test `crit in matriz_editada.index` (line 190): the row keys
are exactly the strings "X", "Y", "Z". -/
def parseCrit (s : String) : Option Crit :=
  if s = "X" then some Crit.X
  else if s = "Y" then some Crit.Y
  else if s = "Z" then some Crit.Z
  else none

/-- Membership test `curva in matriz_editada.columns` (line 190): the column
keys are exactly the strings "A", "B", "C". -/
def parseCurva (s : String) : Option Curva :=
  if s = "A" then some Curva.A
  else if s = "B" then some Curva.B
  else if s = "C" then some Curva.C
  else none

/-- The editable 3x3 service-level matrix (`matriz_editada`): an integer
percentage for each (criticality, curve) cell. -/
structure ServiceMatrix where
  cell : Crit → Curva → ℕ

/-- One input record (one row of the uploaded sheet after numeric coercion,
uppercasing and `fillna(0)`, lines 78-100 of app_v5.py).  Only the fields
the calculation reads are kept. -/
structure SkuRecord where
  sku : String
  crit : String
  curva : String
  leadTimeMean : ℝ
  leadTimeStd : ℝ
  consumoMean : ℝ
  consumoStd : ℝ
  valorUnit : ℝ
  ssAtual : ℝ

/-- `var_dem = periodo * (Desvio Padrão Consumo ** 2)` with
`periodo = Lead Time médio + 1` (lines 201-202). -/
def demandVariance (r : SkuRecord) : ℝ :=
  (r.leadTimeMean + 1) * r.consumoStd ^ 2

/-- `var_lt = (Consumo Médio Mensal ** 2) * (Desvio Padrão LT ** 2)`
(line 203). -/
def leadTimeVariance (r : SkuRecord) : ℝ :=
  r.consumoMean ^ 2 * r.leadTimeStd ^ 2

/-- Quantile resolution (lines 190-196): if the record's criticality and
curve are valid row/column keys, take the matrix cell and
`z = norm.ppf(nivel / 100)`; otherwise fall back to the default 95 with
`z = norm.ppf(0.95)` and flag that a warning is emitted. -/
noncomputable def resolveNivelZ (ppf : ℝ → ℝ) (m : ServiceMatrix)
    (r : SkuRecord) : ℕ × ℝ × Bool :=
  match parseCrit r.crit, parseCurva r.curva with
  | some c, some v => (m.cell c v, ppf ((m.cell c v : ℝ) / 100), false)
  | _, _ => (95, ppf ((95 : ℝ) / 100), true)

/-- The warning message of line 196, naming the SKU and its
(criticality, curve) pair. -/
def warnText (r : SkuRecord) : String :=
  "SKU " ++ r.sku ++
    (": Criticidade " ++ r.crit ++ " ou Curva " ++ r.curva ++
      " nao mapeada. Usando default 95.")

/-- `ss_calc = z_val * np.sqrt(var_dem + var_lt)` (line 205). -/
noncomputable def rawSS (z : ℝ) (r : SkuRecord) : ℝ :=
  z * Real.sqrt (demandVariance r + leadTimeVariance r)

/-- The full per-record result (lines 186-223 of app_v5.py): resolved
service level and z, raw and ceiled safety stock, coverage months, monetary
value, unit and percent differences, and the warnings emitted for this
record.  `difPct` is `none` exactly where the code stores `np.nan`. -/
structure CalcResult where
  nivel : ℕ
  z : ℝ
  ssCalc : ℝ
  ssArred : ℤ
  cobAtual : ℝ
  cobCalc : ℝ
  valorSS : ℝ
  difUnid : ℝ
  difPct : Option ℝ
  warns : List String

/-- Per-record calculation: the loop body of lines 186-207 followed by the
vectorised derived metrics of lines 209-223, restricted to one record. -/
noncomputable def calcRecord (ppf : ℝ → ℝ) (m : ServiceMatrix)
    (r : SkuRecord) : CalcResult :=
  { nivel := (resolveNivelZ ppf m r).1
    z := (resolveNivelZ ppf m r).2.1
    ssCalc := rawSS (resolveNivelZ ppf m r).2.1 r
    ssArred := ⌈rawSS (resolveNivelZ ppf m r).2.1 r⌉
    cobAtual := if 0 < r.consumoMean then r.ssAtual / r.consumoMean else 0
    cobCalc :=
      if 0 < r.consumoMean then
        ((⌈rawSS (resolveNivelZ ppf m r).2.1 r⌉ : ℝ) / r.consumoMean)
      else 0
    valorSS := (⌈rawSS (resolveNivelZ ppf m r).2.1 r⌉ : ℝ) * r.valorUnit
    difUnid := (⌈rawSS (resolveNivelZ ppf m r).2.1 r⌉ : ℝ) - r.ssAtual
    difPct :=
      if 0 < r.ssAtual then
        some (((⌈rawSS (resolveNivelZ ppf m r).2.1 r⌉ : ℝ) / r.ssAtual - 1)
          * 100)
      else none
    warns := if (resolveNivelZ ppf m r).2.2 then [warnText r] else [] }

/-- `.round(2)` applied to one value (line 234): round to two decimal
places. -/
noncomputable def round2 (x : ℝ) : ℝ := (round (100 * x) : ℤ) / 100

/-- One row of `tabela` (lines 226-242): the display/export table, keeping
only the columns the later claims read.  All numeric columns have been
rounded to two decimals. -/
structure Row where
  sku : String
  crit : String
  curva : String
  nivel : ℕ
  ssAtualR : ℝ
  valorUnitR : ℝ
  valorSS : ℝ
  cobCalc : ℝ

/-- Build one `tabela` row from an input record and its calculation result:
the column selection plus `.round(2)` of line 234. -/
noncomputable def mkRow (r : SkuRecord) (c : CalcResult) : Row :=
  { sku := r.sku
    crit := r.crit
    curva := r.curva
    nivel := c.nivel
    ssAtualR := round2 r.ssAtual
    valorUnitR := round2 r.valorUnit
    valorSS := round2 c.valorSS
    cobCalc := round2 c.cobCalc }

/-- `tabela`: the rounded result table for a whole pass (lines 226-242). -/
noncomputable def tabelaOf (ppf : ℝ → ℝ) (m : ServiceMatrix)
    (recs : List SkuRecord) : List Row :=
  recs.map fun r => mkRow r (calcRecord ppf m r)

/-- `valor_novo = tabela['Valor SS Calculado (R$)'].sum()` (line 257): the
financial summary reads the rounded table. -/
noncomputable def valorNovo (rows : List Row) : ℝ :=
  (rows.map Row.valorSS).sum

/-- True when some row of the pass has criticality `c`: `c` appears in the
pivot table's index before the reindex. -/
def hasCrit (rows : List Row) (c : String) : Bool :=
  rows.any fun r => r.crit == c

/-- True when some row of the pass has curve `v`: the column `v` exists in
the pivot table. -/
def hasCurva (rows : List Row) (v : String) : Bool :=
  rows.any fun r => r.curva == v

/-- The group of rows at one (criticality, curve) cell. -/
def cellRows (rows : List Row) (c v : String) : List Row :=
  rows.filter fun r => r.crit == c && r.curva == v

/-- The rows of one criticality (a margin-column group). -/
def critFilter (rows : List Row) (c : String) : List Row :=
  rows.filter fun r => r.crit == c

/-- The rows of one curve (a margin-row group). -/
def curvaFilter (rows : List Row) (v : String) : List Row :=
  rows.filter fun r => r.curva == v

/-- pandas `count` over the SKU column of a group: the number of non-null
SKU values.  SKUs come from `astype(str)` (line 95), so none is null and
the count is the length of the column. -/
def skuColumnCount (rows : List Row) : ℕ :=
  (rows.map Row.sku).length

/-- The row labels of every summary matrix after
`reindex(['X','Y','Z','Total'])` (lines 282, 298, 314). -/
def finalRowKeys : List String := ["X", "Y", "Z", "Total"]

/-- Cell lookup in `matriz_count` (lines 304-315): pivot of SKU counts with
`fill_value=0` and `margins=True`, then reindexed to X,Y,Z,Total.  `none`
stands for a cell that is NaN (a reindexed row with no data) or absent
(a row label outside `finalRowKeys`, dropped by the reindex, or a column
label never observed). -/
def countMatrix (rows : List Row) (c v : String) : Option ℕ :=
  if c = "Total" then
    if v = "Total" then some (skuColumnCount rows)
    else if hasCurva rows v then some (skuColumnCount (curvaFilter rows v))
    else none
  else if finalRowKeys.contains c then
    if hasCrit rows c then
      if v = "Total" then some (skuColumnCount (critFilter rows c))
      else if hasCurva rows v then some (skuColumnCount (cellRows rows c v))
      else none
    else none
  else none

/-- Cell lookup in `matriz_valor` (lines 272-283): pivot of summed
`Valor SS Calculado (R$)` with `fill_value=0`, margins, and the reindex.
Same `none` convention as `countMatrix`. -/
noncomputable def sumMatrix (rows : List Row) (c v : String) : Option ℝ :=
  if c = "Total" then
    if v = "Total" then some ((rows.map Row.valorSS).sum)
    else if hasCurva rows v then
      some (((curvaFilter rows v).map Row.valorSS).sum)
    else none
  else if finalRowKeys.contains c then
    if hasCrit rows c then
      if v = "Total" then some (((critFilter rows c).map Row.valorSS).sum)
      else if hasCurva rows v then
        some (((cellRows rows c v).map Row.valorSS).sum)
      else none
    else none
  else none

/-- Arithmetic mean of a list, with the pivot's `fill_value=0` convention:
an empty group is filled with 0 rather than NaN. -/
noncomputable def listMean (xs : List ℝ) : ℝ :=
  if xs = [] then 0 else xs.sum / xs.length

/-- Cell lookup in `matriz_cobertura` (lines 288-299): pivot of the mean of
`Cobertura Calculada (meses)` with `fill_value=0`, margins, and the
reindex.  Margins apply the mean to the whole flattened group.  Same
`none` convention as `countMatrix`. -/
noncomputable def meanMatrix (rows : List Row) (c v : String) : Option ℝ :=
  if c = "Total" then
    if v = "Total" then some (listMean (rows.map Row.cobCalc))
    else if hasCurva rows v then
      some (listMean ((curvaFilter rows v).map Row.cobCalc))
    else none
  else if finalRowKeys.contains c then
    if hasCrit rows c then
      if v = "Total" then some (listMean ((critFilter rows c).map Row.cobCalc))
      else if hasCurva rows v then
        some (listMean ((cellRows rows c v).map Row.cobCalc))
      else none
    else none
  else none

/-! Concrete instances used by example theorems and witnesses. -/

/-- The default service-level matrix: 95% in every cell (lines 120-124). -/
def m95 : ServiceMatrix := ⟨fun _ _ => 95⟩

/-- The identity as a stand-in quantile function for witnesses whose
conclusion does not depend on the value of ppf. -/
def ppfId : ℝ → ℝ := fun x => x

/-- A record with a mapped (X, A) classification and zero statistics. -/
noncomputable def recXA : SkuRecord :=
  ⟨"SKU-1", "X", "A", 0, 0, 0, 0, 0, 0⟩

/-- A record with a curve "D" that is not a matrix column. -/
noncomputable def recXD : SkuRecord :=
  ⟨"SKU-2", "X", "D", 0, 0, 0, 0, 0, 0⟩

/-- C2: when both criticality and curve are valid keys of the matrix, the
resolved service level is exactly the matrix cell (never the default), the
z-score is ppf of that cell over 100, and no warning is emitted. -/
theorem claim2_mapped_resolution (ppf : ℝ → ℝ) (m : ServiceMatrix)
    (r : SkuRecord) (c : Crit) (v : Curva)
    (hc : parseCrit r.crit = some c) (hv : parseCurva r.curva = some v) :
    (calcRecord ppf m r).nivel = m.cell c v ∧
    (calcRecord ppf m r).z = ppf ((m.cell c v : ℝ) / 100) ∧
    (calcRecord ppf m r).warns = [] := by
  simp [calcRecord, resolveNivelZ, hc, hv]

/-- Witness for C2 at the record ("X", "A") and the all-95 matrix. -/
theorem claim2_witness :
    parseCrit recXA.crit = some Crit.X ∧
    parseCurva recXA.curva = some Curva.A ∧
    ((calcRecord ppfId m95 recXA).nivel = m95.cell Crit.X Curva.A ∧
      (calcRecord ppfId m95 recXA).z =
        ppfId ((m95.cell Crit.X Curva.A : ℝ) / 100) ∧
      (calcRecord ppfId m95 recXA).warns = []) :=
  ⟨rfl, rfl, claim2_mapped_resolution ppfId m95 recXA Crit.X Curva.A rfl rfl⟩

/-- C3: when the (criticality, curve) pair is not a valid (row, column) of
the matrix, the resolved service level is exactly 95, z = ppf (95/100), a
warning naming the SKU and its pair is emitted, and the calculation still
produces the ceiled safety stock for that record. -/
theorem claim3_default_resolution (ppf : ℝ → ℝ) (m : ServiceMatrix)
    (r : SkuRecord)
    (h : parseCrit r.crit = none ∨ parseCurva r.curva = none) :
    (calcRecord ppf m r).nivel = 95 ∧
    (calcRecord ppf m r).z = ppf ((95 : ℝ) / 100) ∧
    (calcRecord ppf m r).warns = [warnText r] ∧
    (calcRecord ppf m r).ssArred = ⌈rawSS (ppf ((95 : ℝ) / 100)) r⌉ := by
  have hres : resolveNivelZ ppf m r = (95, ppf ((95 : ℝ) / 100), true) := by
    rcases h with h | h
    · simp [resolveNivelZ, h]
    · cases hc : parseCrit r.crit <;> simp [resolveNivelZ, h, hc]
  simp [calcRecord, hres]

/-- Witness for C3 at the record with unmapped curve "D". -/
theorem claim3_witness :
    parseCurva recXD.curva = none ∧
    ((calcRecord ppfId m95 recXD).nivel = 95 ∧
      (calcRecord ppfId m95 recXD).z = ppfId ((95 : ℝ) / 100) ∧
      (calcRecord ppfId m95 recXD).warns = [warnText recXD] ∧
      (calcRecord ppfId m95 recXD).ssArred =
        ⌈rawSS (ppfId ((95 : ℝ) / 100)) recXD⌉) :=
  ⟨rfl, claim3_default_resolution ppfId m95 recXD (Or.inr rfl)⟩

/-- C4: the percent difference equals
(roundedSS / currentSS - 1) * 100 when the current safety stock is
positive, and otherwise is the null marker (`none`, the code's np.nan) —
never 0, never infinite, never an exception. -/
theorem claim4_percent_difference (ppf : ℝ → ℝ) (m : ServiceMatrix)
    (r : SkuRecord) :
    (0 < r.ssAtual → (calcRecord ppf m r).difPct =
      some ((((calcRecord ppf m r).ssArred : ℝ) / r.ssAtual - 1) * 100)) ∧
    (¬ 0 < r.ssAtual → (calcRecord ppf m r).difPct = none) := by
  constructor <;> intro h <;> simp [calcRecord, h]

/-- Witness for C4 at a record whose current safety stock is 0. -/
theorem claim4_witness : (calcRecord ppfId m95 recXA).difPct = none :=
  (claim4_percent_difference ppfId m95 recXA).2 (by simp [recXA])

/-- C9: in both resolution branches, the stored z-score is ppf of the
stored service level divided by 100 — the two stored fields are always
mutually consistent. -/
theorem claim9_z_consistency (ppf : ℝ → ℝ) (m : ServiceMatrix)
    (r : SkuRecord) :
    (calcRecord ppf m r).z =
      ppf (((calcRecord ppf m r).nivel : ℝ) / 100) := by
  cases hc : parseCrit r.crit <;> cases hv : parseCurva r.curva <;>
    simp [calcRecord, resolveNivelZ, hc, hv]

/-- The matrix of the spec's worked example: cell (X, A) holds 98. -/
def ex1Matrix : ServiceMatrix := ⟨fun _ _ => 98⟩

/-- The record of the spec's worked example: LeadTimeMean=2,
LeadTimeStdDev=0.5, ConsumptionMean=100, ConsumptionStdDev=20,
Criticality=X, Curve=A. -/
noncomputable def ex1Record : SkuRecord :=
  ⟨"SKU-EX", "X", "A", 2, 0.5, 100, 20, 0, 0⟩

/-- For any z between 2.039 and 2.054 (which brackets the inverse normal
CDF at 0.98, approximately 2.05375), the ceiling of z * sqrt 3700 is
exactly 125. -/
theorem ceil_z_mul_sqrt3700 (z : ℝ) (h1 : (2.039 : ℝ) ≤ z)
    (h2 : z ≤ 2.054) : ⌈z * Real.sqrt 3700⌉ = 125 := by
  have hs1 : (60.827 : ℝ) < Real.sqrt 3700 :=
    (Real.lt_sqrt (by norm_num)).mpr (by norm_num)
  have hs2 : Real.sqrt 3700 < 60.828 :=
    (Real.sqrt_lt' (by norm_num)).mpr (by norm_num)
  have k1 : (0 : ℝ) ≤ z - 2.039 := by linarith
  have k2 : (0 : ℝ) ≤ Real.sqrt 3700 - 60.827 := by linarith
  have k3 : (0 : ℝ) ≤ 2.054 - z := by linarith
  have k4 : (0 : ℝ) ≤ 60.828 - Real.sqrt 3700 := by linarith
  rw [Int.ceil_eq_iff]
  constructor
  · push_cast
    nlinarith [mul_nonneg k1 k2]
  · push_cast
    nlinarith [mul_nonneg k3 k4]

/-- C1: for every record the raw safety stock is
z * sqrt((leadTimeMean + 1) * consumptionStdDev^2
+ consumptionMean^2 * leadTimeStdDev^2) and the rounded safety stock is
its ceiling; at the spec's example record with matrix cell 98 the rounded
safety stock is 125.  The hypotheses bracket ppf 0.98, whose true value is
approximately 2.05375. -/
theorem claim1_formula_and_example (ppf : ℝ → ℝ)
    (h1 : (2.039 : ℝ) ≤ ppf ((98 : ℝ) / 100))
    (h2 : ppf ((98 : ℝ) / 100) ≤ 2.054) :
    (∀ (m : ServiceMatrix) (r : SkuRecord),
      (calcRecord ppf m r).ssCalc =
        (calcRecord ppf m r).z *
          Real.sqrt ((r.leadTimeMean + 1) * r.consumoStd ^ 2 +
            r.consumoMean ^ 2 * r.leadTimeStd ^ 2) ∧
      (calcRecord ppf m r).ssArred = ⌈(calcRecord ppf m r).ssCalc⌉) ∧
    (calcRecord ppf ex1Matrix ex1Record).ssArred = 125 := by
  constructor
  · intro m r
    exact ⟨by simp [calcRecord, rawSS, demandVariance, leadTimeVariance],
      by simp [calcRecord]⟩
  · have hres : resolveNivelZ ppf ex1Matrix ex1Record
        = (98, ppf ((98 : ℝ) / 100), false) := by
      simp [resolveNivelZ, parseCrit, parseCurva, ex1Record, ex1Matrix]
    have hvar : demandVariance ex1Record + leadTimeVariance ex1Record
        = 3700 := by
      simp [demandVariance, leadTimeVariance, ex1Record]
      norm_num
    have hss : (calcRecord ppf ex1Matrix ex1Record).ssArred
        = ⌈ppf ((98 : ℝ) / 100) * Real.sqrt 3700⌉ := by
      simp [calcRecord, rawSS, hres, hvar]
    rw [hss]
    exact ceil_z_mul_sqrt3700 _ h1 h2

/-- A constant stand-in quantile function whose value lies in the bracket
of ppf 0.98 used by the example theorem. -/
noncomputable def ppfEx : ℝ → ℝ := fun _ => 2.05

/-- Witness for C1 at the concrete quantile value 2.05. -/
theorem claim1_witness :
    (2.039 : ℝ) ≤ ppfEx ((98 : ℝ) / 100) ∧
    ppfEx ((98 : ℝ) / 100) ≤ 2.054 ∧
    (calcRecord ppfEx ex1Matrix ex1Record).ssArred = 125 :=
  ⟨by norm_num [ppfEx], by norm_num [ppfEx],
    (claim1_formula_and_example ppfEx (by norm_num [ppfEx])
      (by norm_num [ppfEx])).2⟩

/-- A record with leadTimeMean = -2 (protection period -1) and
consumptionStdDev = 1. -/
noncomputable def recNegLT : SkuRecord :=
  ⟨"SKU-3", "X", "A", -2, 0, 0, 1, 0, 0⟩

/-- C5 counterexample: with leadTimeMean = -2 the demand-variance term
(leadTimeMean + 1) * consumptionStdDev^2 is negative — the protection
period is not squared — and the argument of the square root is negative,
so the claim that both variance terms are non-negative for any real-valued
statistics fails. -/
theorem claim5_counterexample :
    demandVariance recNegLT < 0 ∧
    demandVariance recNegLT + leadTimeVariance recNegLT < 0 := by
  constructor <;> simp [demandVariance, leadTimeVariance, recNegLT]

/-- C5 amended: the lead-time variance term is always non-negative, and
when the protection period leadTimeMean + 1 is non-negative the demand
variance and the square-root argument are also non-negative (no NaN); for
a non-negative resolved z the raw safety stock is non-negative and its
ceiling is a non-negative integer. -/
theorem claim5_amended (ppf : ℝ → ℝ) (m : ServiceMatrix) (r : SkuRecord)
    (hlt : (-1 : ℝ) ≤ r.leadTimeMean)
    (hz : 0 ≤ (resolveNivelZ ppf m r).2.1) :
    0 ≤ demandVariance r ∧
    0 ≤ leadTimeVariance r ∧
    0 ≤ demandVariance r + leadTimeVariance r ∧
    0 ≤ (calcRecord ppf m r).ssCalc ∧
    0 ≤ (calcRecord ppf m r).ssArred := by
  have h1 : 0 ≤ demandVariance r := by
    have : (0 : ℝ) ≤ r.leadTimeMean + 1 := by linarith
    exact mul_nonneg this (sq_nonneg _)
  have h2 : 0 ≤ leadTimeVariance r := mul_nonneg (sq_nonneg _) (sq_nonneg _)
  have h3 : 0 ≤ rawSS (resolveNivelZ ppf m r).2.1 r :=
    mul_nonneg hz (Real.sqrt_nonneg _)
  refine ⟨h1, h2, by linarith, ?_, ?_⟩
  · simpa [calcRecord] using h3
  · simpa [calcRecord] using Int.ceil_nonneg h3

/-- A positive constant stand-in quantile function. -/
noncomputable def ppfPos : ℝ → ℝ := fun _ => 2

/-- Witness for C5 at the (X, A) record with zero statistics. -/
theorem claim5_witness :
    (-1 : ℝ) ≤ recXA.leadTimeMean ∧
    0 ≤ (resolveNivelZ ppfPos m95 recXA).2.1 ∧
    (0 ≤ demandVariance recXA ∧
      0 ≤ leadTimeVariance recXA ∧
      0 ≤ demandVariance recXA + leadTimeVariance recXA ∧
      0 ≤ (calcRecord ppfPos m95 recXA).ssCalc ∧
      0 ≤ (calcRecord ppfPos m95 recXA).ssArred) := by
  have hz : 0 ≤ (resolveNivelZ ppfPos m95 recXA).2.1 := by
    simp [resolveNivelZ, parseCrit, parseCurva, recXA, ppfPos]
  exact ⟨by norm_num [recXA], hz,
    claim5_amended ppfPos m95 recXA (by norm_num [recXA]) hz⟩

/-- C6: the Count summary matrix's cell at row "Total", column "Total"
equals the number of records in the pass. -/
theorem claim6_count_grand_total (rows : List Row) :
    countMatrix rows "Total" "Total" = some rows.length := by
  simp [countMatrix, skuColumnCount]

/-- A result-table row classified (X, A). -/
noncomputable def rowXA : Row := ⟨"S1", "X", "A", 95, 0, 0, 0, 0⟩

/-- A result-table row classified (Y, B). -/
noncomputable def rowYB : Row := ⟨"S2", "Y", "B", 95, 0, 0, 0, 0⟩

/-- A result-table row with the unmapped criticality "W" and curve "A". -/
noncomputable def rowWA : Row := ⟨"S3", "W", "A", 95, 0, 0, 0, 0⟩

/-- C7 counterexample: in a pass whose only record is classified (X, A),
the combination (Y, A) has no records, yet its cell in each summary matrix
is the NaN produced by the reindex (`none`), not 0: the fill only covers
combinations of criticalities and curves that each occur in the pass. -/
theorem claim7_counterexample :
    cellRows [rowXA] "Y" "A" = [] ∧
    countMatrix [rowXA] "Y" "A" = none ∧
    sumMatrix [rowXA] "Y" "A" = none ∧
    meanMatrix [rowXA] "Y" "A" = none := by
  refine ⟨?_, ?_, ?_, ?_⟩ <;>
    simp [cellRows, countMatrix, sumMatrix, meanMatrix, hasCrit, hasCurva,
      finalRowKeys, rowXA]

/-- C7 amended: a (criticality, curve) combination with no records yields
cell value 0 in the count, sum and mean matrices (mean included — no NaN)
provided the criticality is one of X, Y, Z and both the criticality and
the curve occur in at least one record of the pass; a criticality row with
no records at all is instead NaN after the reindex. -/
theorem claim7_amended (rows : List Row) (c v : String)
    (hcfin : finalRowKeys.contains c = true) (hcT : c ≠ "Total")
    (hvT : v ≠ "Total") (hc : hasCrit rows c = true)
    (hv : hasCurva rows v = true) (hempty : cellRows rows c v = []) :
    countMatrix rows c v = some 0 ∧
    sumMatrix rows c v = some 0 ∧
    meanMatrix rows c v = some 0 := by
  have hmem : c ∈ finalRowKeys := by simpa using hcfin
  refine ⟨?_, ?_, ?_⟩ <;>
    simp [countMatrix, sumMatrix, meanMatrix, skuColumnCount, listMean,
      hmem, hcT, hvT, hc, hv, hempty]

/-- Witness for C7 at the pass [(X, A), (Y, B)] and the empty combination
(Y, A). -/
theorem claim7_witness :
    cellRows [rowXA, rowYB] "Y" "A" = [] ∧
    (countMatrix [rowXA, rowYB] "Y" "A" = some 0 ∧
      sumMatrix [rowXA, rowYB] "Y" "A" = some 0 ∧
      meanMatrix [rowXA, rowYB] "Y" "A" = some 0) := by
  have hempty : cellRows [rowXA, rowYB] "Y" "A" = [] := by
    simp [cellRows, rowXA, rowYB]
  refine ⟨hempty, claim7_amended _ _ _ ?_ ?_ ?_ ?_ ?_ hempty⟩
  · simp [finalRowKeys]
  · simp
  · simp
  · simp [hasCrit, rowXA, rowYB]
  · simp [hasCurva, rowXA, rowYB]

/-- C10: in the pass [(X, A), (W, A)] the record with criticality "W"
(outside X, Y, Z) is counted in the "Total" margin row, but "W" is not a
row of the reindexed matrix, so the X, Y, Z cells of column "A" sum to 1
while that column's Total cell is 2. -/
theorem claim10_margin_unmapped :
    countMatrix [rowXA, rowWA] "Total" "Total" = some 2 ∧
    countMatrix [rowXA, rowWA] "Total" "A" = some 2 ∧
    finalRowKeys.contains "W" = false ∧
    countMatrix [rowXA, rowWA] "W" "A" = none ∧
    (countMatrix [rowXA, rowWA] "X" "A").getD 0 +
        (countMatrix [rowXA, rowWA] "Y" "A").getD 0 +
        (countMatrix [rowXA, rowWA] "Z" "A").getD 0 = 1 ∧
    (countMatrix [rowXA, rowWA] "Total" "A").getD 0 ≠ 1 := by
  refine ⟨?_, ?_, ?_, ?_, ?_, ?_⟩ <;>
    simp [countMatrix, skuColumnCount, hasCrit, hasCurva, cellRows,
      critFilter, curvaFilter, finalRowKeys, rowXA, rowWA]

/-- C8 amended: the result table `tabela` is itself rounded to two
decimals, and the financial summary sums those rounded values — as do the
summary matrices and the Excel export, which also read `tabela`; only the
internal frame `resultado` retains full precision and the downstream
outputs do not use it. -/
theorem claim8_amended (ppf : ℝ → ℝ) (m : ServiceMatrix)
    (recs : List SkuRecord) :
    valorNovo (tabelaOf ppf m recs) =
      (recs.map fun r => round2 ((calcRecord ppf m r).valorSS)).sum ∧
    ∀ r : SkuRecord, (mkRow r (calcRecord ppf m r)).valorSS =
      round2 ((calcRecord ppf m r).valorSS) := by
  constructor
  · simp [valorNovo, tabelaOf, mkRow, List.map_map, Function.comp_def]
  · intro r
    rfl

/-- A constant stand-in quantile function with value 1. -/
noncomputable def ppfOne : ℝ → ℝ := fun _ => 1

/-- A record whose calculated safety-stock value is 0.004: unit value
0.004, consumptionStdDev 1, all other statistics 0. -/
noncomputable def rec8 : SkuRecord :=
  ⟨"SKU-4", "X", "A", 0, 0, 0, 1, 0.004, 0⟩

/-- C8 counterexample: for the record whose full-precision calculated
safety-stock value is 0.004, the financial summary — computed over the
rounded table — returns 0, not the full-precision 0.004: the values used
downstream do not retain full precision. -/
theorem claim8_counterexample :
    valorNovo (tabelaOf ppfOne m95 [rec8]) ≠
      (calcRecord ppfOne m95 rec8).valorSS := by
  have hraw : rawSS (resolveNivelZ ppfOne m95 rec8).2.1 rec8 = 1 := by
    have hv : demandVariance rec8 + leadTimeVariance rec8 = 1 := by
      simp only [demandVariance, leadTimeVariance, rec8]
      norm_num
    have hz : (resolveNivelZ ppfOne m95 rec8).2.1 = 1 := by
      simp [resolveNivelZ, parseCrit, parseCurva, rec8, ppfOne]
    unfold rawSS
    rw [hz, hv, Real.sqrt_one, mul_one]
  have hcalc : (calcRecord ppfOne m95 rec8).valorSS = 0.004 := by
    show (⌈rawSS (resolveNivelZ ppfOne m95 rec8).2.1 rec8⌉ : ℝ) *
      rec8.valorUnit = 0.004
    rw [hraw]
    norm_num [rec8]
  have hround : round2 (0.004 : ℝ) = 0 := by
    have h4 : (100 : ℝ) * 0.004 = 0.4 := by norm_num
    have hr : round (0.4 : ℝ) = 0 := by
      rw [round_eq]
      have h9 : (0.4 : ℝ) + 1 / 2 = 0.9 := by norm_num
      rw [h9, Int.floor_eq_iff]
      constructor <;> norm_num
    rw [round2, h4, hr]
    norm_num
  have hlhs : valorNovo (tabelaOf ppfOne m95 [rec8]) = 0 := by
    simp [valorNovo, tabelaOf, mkRow, hcalc, hround]
  rw [hlhs, hcalc]
  norm_num

end SafetyStock
